import Mathlib

/-!
Verification of the risk-analyzer script `analysis1.py`.

The script queries the GitHub API for one repository and computes a heuristic
merge-conflict risk report.  We embed it shallowly: every API query the script
performs becomes a field of an abstract `Repo`, of type `Except String _`
because in Python the underlying HTTP call can raise.  Calls the script wraps
in `try/except` are modelled per item (a commit's file list, a pull request's
size); calls it leaves unguarded are modelled as binds in the `Except` monad,
so an `.error` result of `analyze` models an uncaught exception aborting the
run, while `.ok (.errorReport _)` models the error dictionary returned at
lines 23-26 when `g.get_repo` fails.

Python floats are idealized as exact rationals (`ℚ`): every coefficient in the
score (0.5, 1, 0.2, 3, 2, 0.1, 0.01) is taken at its decimal value.
-/

/-- One commit, as seen through the API: its sha and the result of reading
`commit.files` (line 47), which may raise - guarded by the `try` of
lines 46-50. A successful read yields the list of touched file paths. -/
structure CommitData where
  sha : String
  files : Except String (List String)
  deriving Repr

/-- One open pull request: its number and the result of reading
`pull.deletions + pull.additions` (line 55), which may raise - guarded by the
`try` of lines 54-58. -/
structure PullData where
  number : Nat
  size : Except String Nat
  deriving Repr

/-- One closed pull request, with the two nullable fields read at line 73. -/
structure ClosedPullData where
  merge_commit_sha : Option String
  merged_at : Option String
  deriving Repr, DecidableEq

/-- The abstract repository: one field per API query the script performs.
Each field is `Except String _` because the underlying call can fail. -/
structure Repo where
  /-- `repo.get_contributors().totalCount` (lines 30 and 80). -/
  contributorsCount : Except String Nat
  /-- `repo.get_pulls(state=open).totalCount` (lines 31 and 81). -/
  openPullsCount : Except String Nat
  /-- `repo.get_commits(since=repo.created_at)` (line 44). -/
  commitsSinceCreation : Except String (List CommitData)
  /-- the listing `repo.get_pulls(state=open)` iterated at line 53
  (a second, independent query from the count above). -/
  openPulls : Except String (List PullData)
  /-- branch names from `repo.get_branches()` (line 62). -/
  branches : Except String (List String)
  /-- `repo.get_pulls(state=closed, sort=updated, direction=desc)` (line 71),
  already sorted by last-updated descending as the API returns it. -/
  closedPullsByUpdatedDesc : Except String (List ClosedPullData)
  /-- `len(list(repo.get_commits()))` (line 79): full, unfiltered commit count. -/
  allCommitsCount : Except String Nat
  /-- `repo.get_contents("src/").totalCount` (line 83): unguarded probe of the
  `src/` directory contents; raises e.g. when the path does not exist. -/
  srcContentsCount : Except String Nat

/-- The `src/` path literal tested by `file.startswith("src/")` (line 87). -/
def srcDir : String := "src/"

/-- Python `s.startswith(p)`: `p` is a prefix of `s`, as a character-list
prefix test (equivalent to `String.startsWith`, but reducible by the kernel). -/
def pyStartsWith (s p : String) : Bool :=
  p.data.isPrefixOf s.data

/-- `analysis["frequently_modified_files"][file.filename] += 1` (line 48) on a
`defaultdict(int)`: bump the counter for key `k`, inserting it with value 1 at
the end when absent (Python dicts preserve insertion order). -/
def bump (m : List (String × Nat)) (k : String) : List (String × Nat) :=
  match m with
  | [] => [(k, 1)]
  | (k0, v) :: rest => if k0 = k then (k0, v + 1) :: rest else (k0, v) :: bump rest k

/-- The dict-only effect of one iteration of the commit loop (lines 45-50):
on success every touched file's counter is bumped, on failure the dict is
left unchanged. -/
def scanFmfStep (m : List (String × Nat)) (c : CommitData) : List (String × Nat) :=
  match c.files with
  | .ok fs => fs.foldl bump m
  | .error _ => m

/-- One iteration of the commit loop (lines 45-50) with its diagnostic output:
a failed `commit.files` read appends the line printed at line 50 and leaves
the dict untouched. -/
def scanStep (acc : List (String × Nat) × List String) (c : CommitData) :
    List (String × Nat) × List String :=
  match c.files with
  | .ok fs => (fs.foldl bump acc.1, acc.2)
  | .error e => (acc.1, acc.2 ++ ["Error processing commit " ++ c.sha ++ ": " ++ e])

/-- The whole commit scan (lines 44-50), returning the
`frequently_modified_files` dict and the log lines printed along the way. -/
def scanCommits (commits : List CommitData) : List (String × Nat) × List String :=
  commits.foldl scanStep ([], [])

/-- One iteration of the open-pull loop (lines 53-58): a readable size above
500 increments `large_pull_requests`; a failed read appends the line printed
at line 58. -/
def pullStep (acc : Nat × List String) (p : PullData) : Nat × List String :=
  match p.size with
  | .ok n => (if n > 500 then acc.1 + 1 else acc.1, acc.2)
  | .error e =>
      (acc.1, acc.2 ++ ["Error processing pull request " ++ toString p.number ++ ": " ++ e])

/-- The whole open-pull size scan (lines 53-58). -/
def scanOpenPulls (pulls : List PullData) : Nat × List String :=
  pulls.foldl pullStep (0, [])

/-- Branch-strategy classification (lines 62-68). -/
def classifyBranching (branches : List String) : String :=
  if "main" ∈ branches ∧ "develop" ∈ branches then
    "Detected main and develop branches, potentially indicating a Gitflow-like strategy."
  else if "main" ∈ branches ∨ "master" ∈ branches then
    "Detected a primary branch (main or master)."
  else
    "Could not easily identify a standard branching strategy."

/-- The predicate of line 73: a closed pull request counts as an
unmerged-with-conflict candidate iff both nullable fields are absent. -/
def isUnmergedConflict (p : ClosedPullData) : Bool :=
  p.merge_commit_sha.isNone && p.merged_at.isNone

/-- Lines 71-74: take the first 50 closed pull requests (most recently
updated first) and count those matching the predicate. -/
def countRecentMergeConflicts (closed : List ClosedPullData) : Nat :=
  (closed.take 50).foldl (fun acc p => if isUnmergedConflict p then acc + 1 else acc) 0

/-- The keys of the `frequently_modified_files` dict, in insertion order. -/
def keysOf (m : List (String × Nat)) : List String :=
  m.map Prod.fst

/-- The loop of lines 86-88: count the dict keys starting with `src/`. -/
def disparityLoop (m : List (String × Nat)) : Nat :=
  (keysOf m).foldl (fun acc f => if pyStartsWith f srcDir then acc + 1 else acc) 0

/-- The weighted sum of lines 92-99, in source order, starting from the
initial `risk_score` of 0 (line 36).  `fmfLen` is the raw dict length read at
line 94, `cmf` the `count_of_modified_files` field read at line 97, and `chs`
the `commit_history_size` field read at line 99. -/
def computeRiskScore (nc np fmfLen rmc lpr cmf chs : Nat) : ℚ :=
  0 + (nc : ℚ) * (1 / 2) + (np : ℚ) * 1 + (fmfLen : ℚ) * (1 / 5) + (rmc : ℚ) * 3
    + (lpr : ℚ) * 2 + (cmf : ℚ) * (1 / 10) + (chs : ℚ) * (1 / 100)

/-- The threshold classification of lines 101-106. -/
def riskLevel (score : ℚ) : String :=
  if score > 50 then "High" else if score > 25 then "Medium" else "Low"

/-- The analysis dictionary as completed by a successful run. -/
@[ext]
structure AnalysisReport where
  repository : String
  num_contributors : Nat
  num_open_pulls : Nat
  frequently_modified_files : List (String × Nat)
  recent_merge_conflicts : Nat
  large_pull_requests : Nat
  branching_strategy_notes : String
  risk_score : ℚ
  risk_level : String
  count_of_modified_files : Nat
  commit_history_size : Nat
  disparity_in_location : Nat
  deriving Repr, DecidableEq

/-- What `analyze_repository_conflict_risk` returns when it does not raise:
either the error dictionary of line 26 or the completed analysis dictionary. -/
inductive AnalyzeResult where
  | errorReport (msg : String)
  | report (r : AnalysisReport)
  deriving Repr, DecidableEq

/-- The pure computation of the analysis dictionary from the fetched data,
lines 28-108.  `commit_history_size` keeps its line-39 initialization `0`:
line 79 stores the full commit count into a LOCAL variable, never into the
dictionary, so the field read at line 99 is still 0. -/
def buildReport (repoName : String) (numContributors numOpenPulls : Nat)
    (commits : List CommitData) (pulls : List PullData)
    (branches : List String) (closed : List ClosedPullData) : AnalysisReport :=
  { repository := repoName
    num_contributors := numContributors
    num_open_pulls := numOpenPulls
    frequently_modified_files := (scanCommits commits).1
    recent_merge_conflicts := countRecentMergeConflicts closed
    large_pull_requests := (scanOpenPulls pulls).1
    branching_strategy_notes := classifyBranching branches
    -- line 94 reads the raw dict length and line 97 the `count_of_modified_files`
    -- field set at line 76 to that same length, so both arguments coincide
    risk_score := computeRiskScore numContributors numOpenPulls
      (scanCommits commits).1.length (countRecentMergeConflicts closed)
      (scanOpenPulls pulls).1 (scanCommits commits).1.length 0
    risk_level := riskLevel (computeRiskScore numContributors numOpenPulls
      (scanCommits commits).1.length (countRecentMergeConflicts closed)
      (scanOpenPulls pulls).1 (scanCommits commits).1.length 0)
    count_of_modified_files := (scanCommits commits).1.length
    commit_history_size := 0
    disparity_in_location := disparityLoop (scanCommits commits).1 }

/-- `analyze_repository_conflict_risk` (lines 13-108).  `repoResult` is the
outcome of `g.get_repo(repo_name)` (line 24): its failure is caught and turned
into the error dictionary (lines 25-26).  Every other API call is unguarded,
so its failure propagates as an uncaught exception (`Except.error`).  The four
trailing binds are the re-queries of lines 79-83, whose results land in local
variables and never in the dictionary. -/
def analyze (repoName : String) (repoResult : Except String Repo) :
    Except String AnalyzeResult :=
  match repoResult with
  | .error e => .ok (AnalyzeResult.errorReport ("Could not access repository: " ++ e))
  | .ok repo => do
      let numContributors ← repo.contributorsCount
      let numOpenPulls ← repo.openPullsCount
      let commits ← repo.commitsSinceCreation
      let pulls ← repo.openPulls
      let branchList ← repo.branches
      let closed ← repo.closedPullsByUpdatedDesc
      let _commitHistorySizeLocal ← repo.allCommitsCount
      let _numContributorsLocal ← repo.contributorsCount
      let _numOpenPullsLocal ← repo.openPullsCount
      let _disparityInLocationLocal ← repo.srcContentsCount
      pure (AnalyzeResult.report
        (buildReport repoName numContributors numOpenPulls commits pulls branchList closed))

instance {ε α : Type} [DecidableEq ε] [DecidableEq α] : DecidableEq (Except ε α) := fun a b =>
  match a, b with
  | .error e1, .error e2 => decidable_of_iff (e1 = e2) (by simp)
  | .error _, .ok _ => isFalse (by simp)
  | .ok _, .error _ => isFalse (by simp)
  | .ok a1, .ok a2 => decidable_of_iff (a1 = a2) (by simp)

/-!
The `if __name__ == "__main__"` block, lines 110-121.  The names assigned at
module level before line 113 are the imports, the configuration of lines 6-11,
the function itself, and the two assignments of lines 111-112.  The names
`commit_history_size`, `num_contributors` and `num_open_pulls` printed at
lines 114, 116 and 118 are locals of `analyze_repository_conflict_risk`
(lines 79-81), not module globals, so evaluating them at module level raises
`NameError`.
-/

/-- The module-level names in scope when line 113 executes. -/
def moduleGlobals : List String :=
  ["Github", "os", "defaultdict", "GITHUB_TOKEN", "g",
   "analyze_repository_conflict_risk", "repo_to_analyze", "risk_assessment"]

/-- Python name resolution for a bare name printed at module level: an
unbound name raises `NameError`.  For a bound name the displayed value is
irrelevant to every property proved below (no bound name is printed bare in
the main block), so the name itself stands in for its rendering. -/
def printGlobal (n : String) : Except String String :=
  if n ∈ moduleGlobals then .ok n
  else .error ("NameError: name " ++ n ++ " is not defined")

/-- The `key: value` lines of the final loop (lines 120-121) for a completed
analysis dictionary, in insertion order of its keys. -/
def formatReportLines (r : AnalysisReport) : List String :=
  ["repository: " ++ r.repository,
   "num_contributors: " ++ toString r.num_contributors,
   "num_open_pulls: " ++ toString r.num_open_pulls,
   "frequently_modified_files: " ++ reprStr r.frequently_modified_files,
   "recent_merge_conflicts: " ++ toString r.recent_merge_conflicts,
   "large_pull_requests: " ++ toString r.large_pull_requests,
   "branching_strategy_notes: " ++ r.branching_strategy_notes,
   "risk_score: " ++ toString r.risk_score,
   "risk_level: " ++ r.risk_level,
   "count_of_modified_files: " ++ toString r.count_of_modified_files,
   "commit_history_size: " ++ toString r.commit_history_size,
   "disparity_in_location: " ++ toString r.disparity_in_location]

/-- The `key: value` lines of the final loop (lines 120-121): the error
dictionary of line 26 has the single key `error`. -/
def analyzeResultLines : AnalyzeResult → List String
  | .errorReport m => ["error: " ++ m]
  | .report r => formatReportLines r

/-- The main block (lines 110-121): run the analysis, then print the three
standalone values and the full report.  `.error` models an uncaught exception
ending the process with a nonzero exit code; `.ok lines` models a clean exit 0
having printed `lines`.  The binds follow source order, so the first failing
step determines the exception. -/
def runMain (repoName : String) (repoResult : Except String Repo) :
    Except String (List String) := do
  let riskAssessment ← analyze repoName repoResult
  let v1 ← printGlobal ("commit_history_size")
  let v2 ← printGlobal ("num_contributors")
  let v3 ← printGlobal ("num_open_pulls")
  pure (["", "--- commit_history_size ---", v1]
    ++ ["", "--- num_contributors ---", v2]
    ++ ["", "--- num_open_pulls ---", v3]
    ++ ["", "--- Conflict Risk Assessment ---"]
    ++ analyzeResultLines riskAssessment)

/-!
The concrete repository of the §8 end-to-end scenario: 3 contributors, 2 open
pull requests with 600 and 10 changed lines, 4 commits touching `src/a.py`
three times and `README.md` once, branches `main` and `develop`, no closed
pull requests, total commit count 4.  The `src/` contents probe succeeds.
-/

/-- The four commits of the §8 scenario. -/
def scenarioCommits : List CommitData :=
  [⟨"c1", .ok ["src/a.py"]⟩, ⟨"c2", .ok ["src/a.py"]⟩,
   ⟨"c3", .ok ["src/a.py"]⟩, ⟨"c4", .ok ["README.md"]⟩]

/-- The two open pull requests of the §8 scenario. -/
def scenarioPulls : List PullData :=
  [⟨1, .ok 600⟩, ⟨2, .ok 10⟩]

/-- The §8 scenario repository. -/
def scenarioRepo : Repo :=
  { contributorsCount := .ok 3
    openPullsCount := .ok 2
    commitsSinceCreation := .ok scenarioCommits
    openPulls := .ok scenarioPulls
    branches := .ok ["main", "develop"]
    closedPullsByUpdatedDesc := .ok []
    allCommitsCount := .ok 4
    srcContentsCount := .ok 1 }

/-- The report the code actually produces on the §8 scenario. -/
def scenarioReport : AnalysisReport :=
  { repository := "octo/demo"
    num_contributors := 3
    num_open_pulls := 2
    frequently_modified_files := [("src/a.py", 3), ("README.md", 1)]
    recent_merge_conflicts := 0
    large_pull_requests := 1
    branching_strategy_notes :=
      "Detected main and develop branches, potentially indicating a Gitflow-like strategy."
    risk_score := 61 / 10
    risk_level := "Low"
    count_of_modified_files := 2
    commit_history_size := 0
    disparity_in_location := 1 }

/-- A repository like the scenario one except that the unguarded
`repo.get_contents("src/")` probe of line 83 raises (e.g. the path does not
exist). -/
def badSrcRepo : Repo :=
  { scenarioRepo with srcContentsCount := .error "404: src directory not found" }

/-- Commits among which one file-list read fails (a recovered per-item
failure). -/
def flakyCommits : List CommitData :=
  [⟨"c1", .ok ["src/a.py"]⟩, ⟨"deadbeef", .error "422: diff too large"⟩]

/-- Open pull requests among which one size read fails (a recovered per-item
failure). -/
def flakyPulls : List PullData :=
  [⟨1, .ok 600⟩, ⟨2, .error "500: server error"⟩]

/-- A repository whose per-item reads partly fail but whose top-level API
calls all succeed. -/
def flakyRepo : Repo :=
  { scenarioRepo with
    commitsSinceCreation := .ok flakyCommits
    openPulls := .ok flakyPulls }

/-- Two closed pull requests: one unmerged with no merge commit, one merged
(with `merged_at` set) whose `merge_commit_sha` is absent. -/
def sampleClosedPulls : List ClosedPullData :=
  [⟨none, none⟩, ⟨none, some "2024-01-01T00:00:00Z"⟩]

/-- The scenario repository with the closed pull requests above. -/
def closedPullRepo : Repo :=
  { scenarioRepo with closedPullsByUpdatedDesc := .ok sampleClosedPulls }

/-- An API call outcome that models a raised exception. -/
def isApiFailure {α : Type} (r : Except String α) : Prop :=
  ∃ e, r = Except.error e

/-- The file list a commit contributes to the scan: its touched paths when
the read succeeds, nothing when it fails. -/
def filesOfOk (c : CommitData) : List String :=
  match c.files with
  | .ok fs => fs
  | .error _ => []

/-- Spec-side measure for §8: the file paths seen across all commits, in
order, with repetitions.  For well-formed responses every commit's file list
is readable, so `filesOfOk` is exactly the commit's file list. -/
def allCommitFiles (cs : List CommitData) : List String :=
  (cs.map filesOfOk).flatten

/-- A well-formed response set: every commit's file list is readable. -/
def wellFormedCommits (cs : List CommitData) : Prop :=
  ∀ c ∈ cs, ∃ fs, c.files = Except.ok fs

/-!
Characterization of `analyze`: it returns a completed report exactly when the
repository resolved and every unguarded API call succeeded; the report is then
`buildReport` of the fetched data.
-/

@[simp]
theorem except_bind_ok {α β : Type} (a : α) (f : α → Except String β) :
    (Except.ok a >>= f) = f a := rfl

@[simp]
theorem except_bind_error {α β : Type} (e : String) (f : α → Except String β) :
    ((Except.error e : Except String α) >>= f) = Except.error e := rfl

@[simp]
theorem except_map_ok {α β : Type} (a : α) (f : α → β) :
    (f <$> (Except.ok a : Except String α)) = Except.ok (f a) := rfl

@[simp]
theorem except_map_error {α β : Type} (e : String) (f : α → β) :
    (f <$> (Except.error e : Except String α)) = (Except.error e : Except String β) := rfl

theorem analyze_ok_of_fields (repoName : String) (repo : Repo)
    (nc np chs scc : Nat) (cs : List CommitData) (ps : List PullData)
    (bs : List String) (cl : List ClosedPullData)
    (h1 : repo.contributorsCount = .ok nc)
    (h2 : repo.openPullsCount = .ok np)
    (h3 : repo.commitsSinceCreation = .ok cs)
    (h4 : repo.openPulls = .ok ps)
    (h5 : repo.branches = .ok bs)
    (h6 : repo.closedPullsByUpdatedDesc = .ok cl)
    (h7 : repo.allCommitsCount = .ok chs)
    (h8 : repo.srcContentsCount = .ok scc) :
    analyze repoName (.ok repo) =
      .ok (AnalyzeResult.report (buildReport repoName nc np cs ps bs cl)) := by
  simp [analyze, h1, h2, h3, h4, h5, h6, h7, h8]

theorem analyze_report_fields (repoName : String) (repo : Repo) (r : AnalysisReport)
    (h : analyze repoName (.ok repo) = .ok (AnalyzeResult.report r)) :
    ∃ nc np chs scc cs ps bs cl,
      repo.contributorsCount = .ok nc ∧ repo.openPullsCount = .ok np ∧
      repo.commitsSinceCreation = .ok cs ∧ repo.openPulls = .ok ps ∧
      repo.branches = .ok bs ∧ repo.closedPullsByUpdatedDesc = .ok cl ∧
      repo.allCommitsCount = .ok chs ∧ repo.srcContentsCount = .ok scc ∧
      r = buildReport repoName nc np cs ps bs cl := by
  cases h1 : repo.contributorsCount with
  | error e => simp [analyze, h1] at h
  | ok nc =>
  cases h2 : repo.openPullsCount with
  | error e => simp [analyze, h1, h2] at h
  | ok np =>
  cases h3 : repo.commitsSinceCreation with
  | error e => simp [analyze, h1, h2, h3] at h
  | ok cs =>
  cases h4 : repo.openPulls with
  | error e => simp [analyze, h1, h2, h3, h4] at h
  | ok ps =>
  cases h5 : repo.branches with
  | error e => simp [analyze, h1, h2, h3, h4, h5] at h
  | ok bs =>
  cases h6 : repo.closedPullsByUpdatedDesc with
  | error e => simp [analyze, h1, h2, h3, h4, h5, h6] at h
  | ok cl =>
  cases h7 : repo.allCommitsCount with
  | error e => simp [analyze, h1, h2, h3, h4, h5, h6, h7] at h
  | ok chs =>
  cases h8 : repo.srcContentsCount with
  | error e => simp [analyze, h1, h2, h3, h4, h5, h6, h7, h8] at h
  | ok scc =>
  have hok := analyze_ok_of_fields repoName repo nc np chs scc cs ps bs cl
    h1 h2 h3 h4 h5 h6 h7 h8
  rw [hok] at h
  obtain rfl : buildReport repoName nc np cs ps bs cl = r :=
    AnalyzeResult.report.inj (Except.ok.inj h)
  exact ⟨nc, np, chs, scc, cs, ps, bs, cl, rfl, rfl, rfl, rfl, rfl, rfl, rfl, rfl, rfl⟩

theorem scenario_fmf : (scanCommits scenarioCommits).1 = [("src/a.py", 3), ("README.md", 1)] := by
  rfl

theorem scenario_score : computeRiskScore 3 2 2 0 1 2 0 = 61 / 10 := by
  norm_num [computeRiskScore]

theorem scenario_buildReport :
    buildReport "octo/demo" 3 2 scenarioCommits scenarioPulls ["main", "develop"] [] =
      scenarioReport := by
  have hscore : computeRiskScore 3 2 (scanCommits scenarioCommits).1.length
      (countRecentMergeConflicts []) (scanOpenPulls scenarioPulls).1
      (scanCommits scenarioCommits).1.length 0 = 61 / 10 := by
    rw [scenario_fmf]
    exact scenario_score
  apply AnalysisReport.ext
  · rfl
  · rfl
  · rfl
  · exact scenario_fmf
  · rfl
  · rfl
  · rfl
  · show computeRiskScore 3 2 (scanCommits scenarioCommits).1.length
      (countRecentMergeConflicts []) (scanOpenPulls scenarioPulls).1
      (scanCommits scenarioCommits).1.length 0 = scenarioReport.risk_score
    rw [hscore]
    rfl
  · show riskLevel (computeRiskScore 3 2 (scanCommits scenarioCommits).1.length
      (countRecentMergeConflicts []) (scanOpenPulls scenarioPulls).1
      (scanCommits scenarioCommits).1.length 0) = scenarioReport.risk_level
    rw [hscore]
    norm_num [riskLevel, scenarioReport]
  · rfl
  · rfl
  · rfl

/-- The code run on the §8 scenario: a helper equation shared below. -/
theorem scenario_analyze :
    analyze "octo/demo" (.ok scenarioRepo) = .ok (AnalyzeResult.report scenarioReport) := by
  have h := analyze_ok_of_fields "octo/demo" scenarioRepo 3 2 4 1 scenarioCommits
    scenarioPulls ["main", "develop"] [] rfl rfl rfl rfl rfl rfl rfl rfl
  rw [h, scenario_buildReport]

/-!
Generic facts about the accumulation loops: a `foldl` that conditionally
increments counts exactly the matching elements, and the dict built by `bump`
has nodup keys whose membership is the membership in the scanned files.
-/

theorem foldl_count_eq (p : α → Bool) (l : List α) (n : Nat) :
    l.foldl (fun acc x => if p x then acc + 1 else acc) n = n + (l.filter p).length := by
  induction l generalizing n with
  | nil => simp
  | cons x xs ih =>
      by_cases hx : p x <;> simp [hx, ih, Nat.add_assoc, Nat.add_comm 1]

theorem keysOf_bump (m : List (String × Nat)) (k : String) :
    keysOf (bump m k) = if k ∈ keysOf m then keysOf m else keysOf m ++ [k] := by
  induction m with
  | nil => simp [bump, keysOf]
  | cons kv rest ih =>
      obtain ⟨k0, v⟩ := kv
      by_cases hk : k0 = k
      · subst hk
        simp [bump, keysOf]
      · have hbump : keysOf (bump ((k0, v) :: rest) k) = k0 :: keysOf (bump rest k) := by
          simp [bump, if_neg hk, keysOf]
        have hcons : keysOf ((k0, v) :: rest) = k0 :: keysOf rest := rfl
        rw [hbump, ih, hcons]
        by_cases hmem : k ∈ keysOf rest
        · rw [if_pos hmem, if_pos (List.mem_cons_of_mem _ hmem)]
        · rw [if_neg hmem, if_neg ?_]
          · rfl
          · intro hcontra
            rcases List.mem_cons.1 hcontra with h1 | h2
            · exact hk h1.symm
            · exact hmem h2

theorem mem_keysOf_bump (m : List (String × Nat)) (k a : String) :
    a ∈ keysOf (bump m k) ↔ a ∈ keysOf m ∨ a = k := by
  rw [keysOf_bump]
  by_cases hmem : k ∈ keysOf m
  · simp only [if_pos hmem]
    constructor
    · exact Or.inl
    · rintro (h | rfl)
      · exact h
      · exact hmem
  · simp [if_neg hmem]

theorem nodup_keysOf_bump (m : List (String × Nat)) (k : String)
    (h : (keysOf m).Nodup) : (keysOf (bump m k)).Nodup := by
  rw [keysOf_bump]
  by_cases hmem : k ∈ keysOf m
  · simpa [if_pos hmem] using h
  · rw [if_neg hmem]
    refine List.Nodup.append h (List.nodup_singleton k) ?_
    intro x hx hx'
    rw [List.mem_singleton] at hx'
    subst hx'
    exact hmem hx

theorem mem_keysOf_foldl_bump (fs : List String) (m : List (String × Nat)) (a : String) :
    a ∈ keysOf (fs.foldl bump m) ↔ a ∈ keysOf m ∨ a ∈ fs := by
  induction fs generalizing m with
  | nil => simp
  | cons f fs ih =>
      simp only [List.foldl_cons, List.mem_cons, ih, mem_keysOf_bump]
      tauto

theorem nodup_keysOf_foldl_bump (fs : List String) (m : List (String × Nat))
    (h : (keysOf m).Nodup) : (keysOf (fs.foldl bump m)).Nodup := by
  induction fs generalizing m with
  | nil => exact h
  | cons f fs ih => exact ih _ (nodup_keysOf_bump _ _ h)

theorem fst_scanStep (acc : List (String × Nat) × List String) (c : CommitData) :
    (scanStep acc c).1 = scanFmfStep acc.1 c := by
  cases hc : c.files <;> simp [scanStep, scanFmfStep, hc]

theorem fst_foldl_scanStep (cs : List CommitData)
    (acc : List (String × Nat) × List String) :
    (cs.foldl scanStep acc).1 = cs.foldl scanFmfStep acc.1 := by
  induction cs generalizing acc with
  | nil => rfl
  | cons c cs ih => rw [List.foldl_cons, List.foldl_cons, ih, fst_scanStep]

theorem mem_keysOf_foldl_scanFmfStep (cs : List CommitData)
    (m : List (String × Nat)) (a : String) :
    a ∈ keysOf (cs.foldl scanFmfStep m) ↔ a ∈ keysOf m ∨ a ∈ allCommitFiles cs := by
  induction cs generalizing m with
  | nil => simp [allCommitFiles]
  | cons c cs ih =>
      have hstep : scanFmfStep m c = (filesOfOk c).foldl bump m := by
        cases hc : c.files <;> simp [scanFmfStep, filesOfOk, hc]
      have hsplit : allCommitFiles (c :: cs) = filesOfOk c ++ allCommitFiles cs := by
        simp [allCommitFiles]
      rw [List.foldl_cons, hstep, ih, mem_keysOf_foldl_bump, hsplit]
      simp only [List.mem_append]
      tauto

theorem nodup_keysOf_foldl_scanFmfStep (cs : List CommitData)
    (m : List (String × Nat)) (h : (keysOf m).Nodup) :
    (keysOf (cs.foldl scanFmfStep m)).Nodup := by
  induction cs generalizing m with
  | nil => exact h
  | cons c cs ih =>
      have hstep : scanFmfStep m c = (filesOfOk c).foldl bump m := by
        cases hc : c.files <;> simp [scanFmfStep, filesOfOk, hc]
      rw [List.foldl_cons, hstep]
      exact ih _ (nodup_keysOf_foldl_bump _ _ h)

/-- The dict keys produced by the commit scan are a permutation of the
deduplicated file paths seen across the scanned commits. -/
theorem keysOf_scanCommits_perm (cs : List CommitData) :
    (keysOf (scanCommits cs).1).Perm (allCommitFiles cs).dedup := by
  rw [scanCommits, fst_foldl_scanStep]
  refine (List.perm_ext_iff_of_nodup ?_ (List.nodup_dedup _)).2 ?_
  · exact nodup_keysOf_foldl_scanFmfStep cs [] (by simp [keysOf])
  · intro a
    rw [mem_keysOf_foldl_scanFmfStep, List.mem_dedup]
    simp [keysOf]

/-- `bump` stores only positive counters when it starts from positive ones:
an existing entry is incremented, a fresh entry starts at 1. -/
theorem bump_values_pos (m : List (String × Nat)) (k : String)
    (h : ∀ kv ∈ m, 1 ≤ kv.2) : ∀ kv ∈ bump m k, 1 ≤ kv.2 := by
  induction m with
  | nil =>
      intro kv hkv
      rw [bump] at hkv
      rcases List.mem_singleton.1 hkv with rfl
      exact Nat.le_refl 1
  | cons kv0 rest ih =>
      obtain ⟨k0, v⟩ := kv0
      intro kv hkv
      by_cases hk : k0 = k
      · subst hk
        rw [bump, if_pos rfl] at hkv
        rcases List.mem_cons.1 hkv with rfl | hmem
        · exact Nat.le_add_left 1 v
        · exact h kv (List.mem_cons_of_mem _ hmem)
      · rw [bump, if_neg hk] at hkv
        rcases List.mem_cons.1 hkv with rfl | hmem
        · exact h (k0, v) (List.mem_cons_self _ _)
        · exact ih (fun kv' hkv' => h kv' (List.mem_cons_of_mem _ hkv')) kv hmem

theorem foldl_bump_values_pos (fs : List String) (m : List (String × Nat))
    (h : ∀ kv ∈ m, 1 ≤ kv.2) : ∀ kv ∈ fs.foldl bump m, 1 ≤ kv.2 := by
  induction fs generalizing m with
  | nil => exact h
  | cons f fs ih => exact ih _ (bump_values_pos m f h)

theorem scanFmfStep_values_pos (m : List (String × Nat)) (c : CommitData)
    (h : ∀ kv ∈ m, 1 ≤ kv.2) : ∀ kv ∈ scanFmfStep m c, 1 ≤ kv.2 := by
  cases hc : c.files with
  | ok fs =>
      rw [scanFmfStep, hc]
      exact foldl_bump_values_pos fs m h
  | error e =>
      rw [scanFmfStep, hc]
      exact h

theorem scanCommits_values_pos (cs : List CommitData) :
    ∀ kv ∈ (scanCommits cs).1, 1 ≤ kv.2 := by
  rw [scanCommits, fst_foldl_scanStep]
  have : ∀ m : List (String × Nat), (∀ kv ∈ m, 1 ≤ kv.2) →
      ∀ kv ∈ cs.foldl scanFmfStep m, 1 ≤ kv.2 := by
    induction cs with
    | nil => exact fun m h => h
    | cons c cs ih =>
        intro m h
        exact ih _ (scanFmfStep_values_pos m c h)
  exact this [] (by intro kv hkv; cases hkv)

/-- Claim C1, counterexample: on the §8 scenario repository the code returns
risk_score 6.1, not the 6.14 the claim states - the 0.01-weighted term reads
the `commit_history_size` field, which is still 0, not the total commit
count 4. -/
theorem c1_scenario_counterexample :
    analyze "octo/demo" (.ok scenarioRepo) = .ok (AnalyzeResult.report scenarioReport) ∧
    scenarioReport.risk_score = 61 / 10 ∧ (61 / 10 : ℚ) ≠ 614 / 100 :=
  ⟨scenario_analyze, rfl, by norm_num⟩

/-- Claim C1 (amended): on the §8 scenario - 3 contributors, 2 open pull
requests of sizes 600 and 10, 4 commits touching src/a.py thrice and
README.md once, branches main and develop, no disqualifying closed pull
requests, total commit count 4 - analyze returns count_of_modified_files = 2,
disparity_in_location = 1, large_pull_requests = 1,
recent_merge_conflicts = 0, risk_score = 6.1 (the commit_history_size term
contributes 0 because the field is never populated), and risk_level = Low. -/
theorem c1_scenario_report :
    analyze "octo/demo" (.ok scenarioRepo) = .ok (AnalyzeResult.report scenarioReport) ∧
    scenarioReport.count_of_modified_files = 2 ∧
    scenarioReport.disparity_in_location = 1 ∧
    scenarioReport.large_pull_requests = 1 ∧
    scenarioReport.recent_merge_conflicts = 0 ∧
    scenarioReport.risk_score = 61 / 10 ∧
    scenarioReport.risk_level = "Low" :=
  ⟨scenario_analyze, rfl, rfl, rfl, rfl, rfl, rfl⟩

/-- Claim C2: the claim says the commit_history_size field of a returned
report equals the repository's total commit count; on the scenario repository
the total count is 4 yet the returned field is 0, because line 79 stores the
count into a local variable and never into the dictionary. -/
theorem c2_commit_history_size_stays_zero :
    scenarioRepo.allCommitsCount = Except.ok 4 ∧
    analyze "octo/demo" (.ok scenarioRepo) = .ok (AnalyzeResult.report scenarioReport) ∧
    scenarioReport.commit_history_size = 0 :=
  ⟨rfl, scenario_analyze, rfl⟩

/-- Claim C5, counterexample: on the §8 scenario the claimed formula with
commit_history_size = total commit count (4) gives 6.14, but the code's
risk_score is 6.1. -/
theorem c5_formula_counterexample :
    analyze "octo/demo" (.ok scenarioRepo) = .ok (AnalyzeResult.report scenarioReport) ∧
    scenarioRepo.allCommitsCount = Except.ok 4 ∧
    scenarioReport.risk_score ≠
      (3 : ℚ) * (1 / 2) + (2 : ℚ) * 1 + (2 : ℚ) * (1 / 5) + (0 : ℚ) * 3 + (1 : ℚ) * 2
        + (2 : ℚ) * (1 / 10) + (4 : ℚ) * (1 / 100) := by
  refine ⟨scenario_analyze, rfl, ?_⟩
  show (61 / 10 : ℚ) ≠ _
  norm_num

/-- Claim C5 (amended): in every returned report, risk_score equals
num_contributors*0.5 + num_open_pulls*1 + count_of_modified_files*0.2 +
recent_merge_conflicts*3 + large_pull_requests*2 + count_of_modified_files*0.1
+ commit_history_size*0.01, where commit_history_size is the report field -
which is always still 0 at scoring time, so the last term contributes
nothing. -/
theorem c5_risk_score_formula (repoName : String) (repoResult : Except String Repo)
    (r : AnalysisReport)
    (h : analyze repoName repoResult = .ok (AnalyzeResult.report r)) :
    r.commit_history_size = 0 ∧
    r.risk_score =
      (r.num_contributors : ℚ) * (1 / 2) + (r.num_open_pulls : ℚ) * 1
        + (r.count_of_modified_files : ℚ) * (1 / 5) + (r.recent_merge_conflicts : ℚ) * 3
        + (r.large_pull_requests : ℚ) * 2 + (r.count_of_modified_files : ℚ) * (1 / 10)
        + (r.commit_history_size : ℚ) * (1 / 100) := by
  cases repoResult with
  | error e => simp [analyze] at h
  | ok repo =>
      obtain ⟨nc, np, chs, scc, cs, ps, bs, cl, _, _, _, _, _, _, _, _, rfl⟩ :=
        analyze_report_fields repoName repo r h
      refine ⟨rfl, ?_⟩
      simp only [buildReport, computeRiskScore]
      push_cast
      ring

/-- Claim C5, witness: the amended formula instantiated on the §8 scenario. -/
theorem c5_risk_score_formula_witness :
    scenarioReport.commit_history_size = 0 ∧
    scenarioReport.risk_score =
      (scenarioReport.num_contributors : ℚ) * (1 / 2) + (scenarioReport.num_open_pulls : ℚ) * 1
        + (scenarioReport.count_of_modified_files : ℚ) * (1 / 5)
        + (scenarioReport.recent_merge_conflicts : ℚ) * 3
        + (scenarioReport.large_pull_requests : ℚ) * 2
        + (scenarioReport.count_of_modified_files : ℚ) * (1 / 10)
        + (scenarioReport.commit_history_size : ℚ) * (1 / 100) :=
  c5_risk_score_formula "octo/demo" (.ok scenarioRepo) scenarioReport scenario_analyze

/-- Claim C7: risk classification - a score above 50 is High, above 25 and at
most 50 is Medium, at most 25 is Low; in particular 25 is Low, 25.0001 is
Medium, 50 is Medium, 50.0001 is High. -/
theorem c7_risk_level_thresholds :
    (∀ s : ℚ, 50 < s → riskLevel s = "High") ∧
    (∀ s : ℚ, 25 < s → s ≤ 50 → riskLevel s = "Medium") ∧
    (∀ s : ℚ, s ≤ 25 → riskLevel s = "Low") ∧
    riskLevel 25 = "Low" ∧ riskLevel (250001 / 10000) = "Medium" ∧
    riskLevel 50 = "Medium" ∧ riskLevel (500001 / 10000) = "High" := by
  refine ⟨?_, ?_, ?_, ?_, ?_, ?_, ?_⟩
  · intro s hs
    rw [riskLevel, if_pos hs]
  · intro s h1 h2
    rw [riskLevel, if_neg (not_lt.2 h2), if_pos h1]
  · intro s hs
    rw [riskLevel, if_neg (not_lt.2 (hs.trans (by norm_num))), if_neg (not_lt.2 hs)]
  · norm_num [riskLevel]
  · norm_num [riskLevel]
  · norm_num [riskLevel]
  · norm_num [riskLevel]

/-- Claim C7, witness: the three threshold branches at concrete scores. -/
theorem c7_risk_level_thresholds_witness :
    riskLevel 60 = "High" ∧ riskLevel 30 = "Medium" ∧ riskLevel 10 = "Low" :=
  ⟨c7_risk_level_thresholds.1 60 (by norm_num),
   c7_risk_level_thresholds.2.1 30 (by norm_num) (by norm_num),
   c7_risk_level_thresholds.2.2.1 10 (by norm_num)⟩

/-- Claim C9: when a commit's file-list read fails, the loop iteration logs a
line carrying the commit's sha, leaves the accumulated dict unchanged
(incrementing no counter for the failed commit), and the scan continues with
the remaining commits. -/
theorem c9_failed_commit_logged_and_skipped (m : List (String × Nat))
    (logs : List String) (c : CommitData) (e : String) (rest : List CommitData)
    (hc : c.files = Except.error e) :
    scanStep (m, logs) c =
      (m, logs ++ ["Error processing commit " ++ c.sha ++ ": " ++ e]) ∧
    List.foldl scanStep (m, logs) (c :: rest) =
      List.foldl scanStep
        (m, logs ++ ["Error processing commit " ++ c.sha ++ ": " ++ e]) rest := by
  have h1 : scanStep (m, logs) c =
      (m, logs ++ ["Error processing commit " ++ c.sha ++ ": " ++ e]) := by
    simp [scanStep, hc]
  exact ⟨h1, by rw [List.foldl_cons, h1]⟩

/-- Claim C9, witness: a failing commit in the middle of a concrete scan. -/
theorem c9_failed_commit_witness :
    scanStep ([("src/a.py", 2)], []) ⟨"deadbeef", Except.error "403: forbidden"⟩ =
      ([("src/a.py", 2)], ["Error processing commit deadbeef: 403: forbidden"]) ∧
    List.foldl scanStep ([("src/a.py", 2)], [])
        [⟨"deadbeef", Except.error "403: forbidden"⟩, ⟨"c4", Except.ok ["README.md"]⟩] =
      List.foldl scanStep
        ([("src/a.py", 2)], ["Error processing commit deadbeef: 403: forbidden"])
        [⟨"c4", Except.ok ["README.md"]⟩] :=
  c9_failed_commit_logged_and_skipped [("src/a.py", 2)] []
    ⟨"deadbeef", Except.error "403: forbidden"⟩ "403: forbidden"
    [⟨"c4", Except.ok ["README.md"]⟩] rfl

/-- Claim C10: every counter stored in the frequently_modified_files mapping
of a returned report is at least 1 - a path becomes a key only when its
counter is bumped for some commit. -/
theorem c10_fmf_values_positive (repoName : String) (repoResult : Except String Repo)
    (r : AnalysisReport)
    (h : analyze repoName repoResult = .ok (AnalyzeResult.report r)) :
    ∀ kv ∈ r.frequently_modified_files, 1 ≤ kv.2 := by
  cases repoResult with
  | error e => simp [analyze] at h
  | ok repo =>
      obtain ⟨nc, np, chs, scc, cs, ps, bs, cl, _, _, _, _, _, _, _, _, rfl⟩ :=
        analyze_report_fields repoName repo r h
      exact scanCommits_values_pos cs

/-- Claim C10, witness: the src/a.py counter of the §8 scenario report is
positive. -/
theorem c10_fmf_values_positive_witness :
    1 ≤ (("src/a.py", 3) : String × Nat).2 :=
  c10_fmf_values_positive "octo/demo" (.ok scenarioRepo) scenarioReport scenario_analyze
    ("src/a.py", 3) (by decide)

theorem ok_of_not_failure {α : Type} (r : Except String α) (h : ¬ isApiFailure r) :
    ∃ a, r = Except.ok a := by
  cases r with
  | error e => exact absurd ⟨e, rfl⟩ h
  | ok a => exact ⟨a, rfl⟩

theorem countRecentMergeConflicts_eq (closed : List ClosedPullData) :
    countRecentMergeConflicts closed =
      ((closed.take 50).filter isUnmergedConflict).length := by
  rw [countRecentMergeConflicts, foldl_count_eq, Nat.zero_add]

theorem disparityLoop_eq (m : List (String × Nat)) :
    disparityLoop m = ((keysOf m).filter (fun f => pyStartsWith f srcDir)).length := by
  rw [disparityLoop, foldl_count_eq, Nat.zero_add]

/-- Claim C3, counterexample: the repository resolved (the input is `.ok`),
yet the run aborts without a score: the unguarded
`repo.get_contents("src/")` probe of line 83 raises and nothing catches it -
a post-resolution failure that is fatal, not logged-and-skipped. -/
theorem c3_unguarded_failure_counterexample :
    badSrcRepo.srcContentsCount = Except.error "404: src directory not found" ∧
    analyze "octo/demo" (.ok badSrcRepo) =
      Except.error "404: src directory not found" := by
  exact ⟨rfl, rfl⟩

/-- Claim C3 (amended): a failed resolution is returned as the error report
(the only recovered failure); when every unguarded post-resolution API call
succeeds the run always completes with a report, whatever per-item failures
the commit and pull scans contain; and an aborted run implies some unguarded
post-resolution call failed (contributor count, open-pull count, commit
listing, open-pull listing, branch listing, closed-pull listing, full commit
count, or the src/ contents probe of line 83). -/
theorem c3_failure_modes :
    (∀ repoName e, analyze repoName (.error e) =
      .ok (AnalyzeResult.errorReport ("Could not access repository: " ++ e))) ∧
    (∀ repoName repo nc np chs scc cs ps bs cl,
      repo.contributorsCount = .ok nc → repo.openPullsCount = .ok np →
      repo.commitsSinceCreation = .ok cs → repo.openPulls = .ok ps →
      repo.branches = .ok bs → repo.closedPullsByUpdatedDesc = .ok cl →
      repo.allCommitsCount = .ok chs → repo.srcContentsCount = .ok scc →
      analyze repoName (.ok repo) =
        .ok (AnalyzeResult.report (buildReport repoName nc np cs ps bs cl))) ∧
    (∀ repoName repo e, analyze repoName (.ok repo) = Except.error e →
      isApiFailure repo.contributorsCount ∨ isApiFailure repo.openPullsCount ∨
      isApiFailure repo.commitsSinceCreation ∨ isApiFailure repo.openPulls ∨
      isApiFailure repo.branches ∨ isApiFailure repo.closedPullsByUpdatedDesc ∨
      isApiFailure repo.allCommitsCount ∨ isApiFailure repo.srcContentsCount) := by
  refine ⟨fun repoName e => rfl, analyze_ok_of_fields, ?_⟩
  intro repoName repo e h
  by_contra hall
  push_neg at hall
  obtain ⟨n1, n2, n3, n4, n5, n6, n7, n8⟩ := hall
  obtain ⟨nc, h1⟩ := ok_of_not_failure _ n1
  obtain ⟨np, h2⟩ := ok_of_not_failure _ n2
  obtain ⟨cs, h3⟩ := ok_of_not_failure _ n3
  obtain ⟨ps, h4⟩ := ok_of_not_failure _ n4
  obtain ⟨bs, h5⟩ := ok_of_not_failure _ n5
  obtain ⟨cl, h6⟩ := ok_of_not_failure _ n6
  obtain ⟨chs, h7⟩ := ok_of_not_failure _ n7
  obtain ⟨scc, h8⟩ := ok_of_not_failure _ n8
  rw [analyze_ok_of_fields repoName repo nc np chs scc cs ps bs cl
    h1 h2 h3 h4 h5 h6 h7 h8] at h
  simp at h

/-- Claim C3, witness: the two non-aborting modes at concrete inputs - a
failed resolution yields the error report, and per-item failures (one
unreadable commit file list, one unreadable pull size) do not abort the
run. -/
theorem c3_failure_modes_witness :
    analyze "octo/demo" (.error "bad credentials") =
      .ok (AnalyzeResult.errorReport
        ("Could not access repository: " ++ "bad credentials")) ∧
    analyze "octo/demo" (.ok flakyRepo) =
      .ok (AnalyzeResult.report
        (buildReport "octo/demo" 3 2 flakyCommits flakyPulls ["main", "develop"] [])) :=
  ⟨c3_failure_modes.1 "octo/demo" "bad credentials",
   c3_failure_modes.2.1 "octo/demo" flakyRepo 3 2 4 1 flakyCommits flakyPulls
     ["main", "develop"] [] rfl rfl rfl rfl rfl rfl rfl rfl⟩

/-- Claim C4: the claim says the program prints the three standalone values
then the full report and exits 0 on normal completion; in fact the main block
never completes normally - the three printed names are locals of the analysis
function, not module globals, so the first standalone printout raises
NameError (and when the analysis itself raised, that exception propagates
instead). -/
theorem c4_main_never_completes :
    ∀ (repoName : String) (repoResult : Except String Repo),
      (∃ e, runMain repoName repoResult = Except.error e) ∧
      (∀ res, analyze repoName repoResult = Except.ok res →
        runMain repoName repoResult =
          Except.error ("NameError: name commit_history_size is not defined")) := by
  intro repoName repoResult
  have hpg : printGlobal ("commit_history_size") =
      Except.error ("NameError: name commit_history_size is not defined") := by rfl
  constructor
  · cases hres : analyze repoName repoResult with
    | error e => exact ⟨e, by simp [runMain, hres]⟩
    | ok res =>
        exact ⟨"NameError: name commit_history_size is not defined",
          by simp [runMain, hres, hpg]⟩
  · intro res hres
    simp [runMain, hres, hpg]

/-- Claim C4, witness: the NameError on the §8 scenario run. -/
theorem c4_main_never_completes_witness :
    runMain "octo/demo" (.ok scenarioRepo) =
      Except.error ("NameError: name commit_history_size is not defined") :=
  (c4_main_never_completes "octo/demo" (.ok scenarioRepo)).2
    (AnalyzeResult.report scenarioReport) scenario_analyze

/-- Claim C6: recent_merge_conflicts counts, among the first 50 closed pull
requests by last-updated descending, exactly those whose merge_commit_sha and
merged_at are both absent; a closed pull request with merged_at set never
matches the predicate, even with merge_commit_sha absent. -/
theorem c6_recent_merge_conflicts (repoName : String) (repo : Repo)
    (cl : List ClosedPullData) (r : AnalysisReport)
    (hcl : repo.closedPullsByUpdatedDesc = .ok cl)
    (h : analyze repoName (.ok repo) = .ok (AnalyzeResult.report r)) :
    r.recent_merge_conflicts =
      ((cl.take 50).filter
        (fun p => p.merge_commit_sha.isNone && p.merged_at.isNone)).length ∧
    ∀ p : ClosedPullData, p.merged_at.isSome → isUnmergedConflict p = false := by
  obtain ⟨nc, np, chs, scc, cs, ps, bs, cl', _, _, _, _, _, hcl', _, _, rfl⟩ :=
    analyze_report_fields repoName repo r h
  obtain rfl : cl = cl' := Except.ok.inj (hcl.symm.trans hcl')
  constructor
  · show countRecentMergeConflicts cl = _
    rw [countRecentMergeConflicts_eq]
    rfl
  · intro p hp
    cases hmat : p.merged_at with
    | none => rw [hmat] at hp; simp at hp
    | some t => simp [isUnmergedConflict, hmat]

/-- Claim C6, witness: two concrete closed pull requests - one with both
fields absent (counted), one merged with merge_commit_sha absent (not
counted). -/
theorem c6_recent_merge_conflicts_witness :
    (buildReport "octo/demo" 3 2 scenarioCommits scenarioPulls ["main", "develop"]
        sampleClosedPulls).recent_merge_conflicts =
      ((sampleClosedPulls.take 50).filter
        (fun p => p.merge_commit_sha.isNone && p.merged_at.isNone)).length ∧
    ∀ p : ClosedPullData, p.merged_at.isSome → isUnmergedConflict p = false :=
  c6_recent_merge_conflicts "octo/demo" closedPullRepo sampleClosedPulls
    (buildReport "octo/demo" 3 2 scenarioCommits scenarioPulls ["main", "develop"]
      sampleClosedPulls) rfl rfl

/-- Claim C8: for well-formed responses, count_of_modified_files equals the
number of distinct file paths seen across all scanned commits regardless of
repetitions, and disparity_in_location never exceeds it and equals the number
of those distinct paths with prefix src/. -/
theorem c8_distinct_file_counts (repoName : String) (repo : Repo)
    (cs : List CommitData) (r : AnalysisReport)
    (hcs : repo.commitsSinceCreation = .ok cs)
    (_hwf : wellFormedCommits cs)
    (h : analyze repoName (.ok repo) = .ok (AnalyzeResult.report r)) :
    r.disparity_in_location ≤ r.count_of_modified_files ∧
    r.count_of_modified_files = (allCommitFiles cs).dedup.length ∧
    r.disparity_in_location =
      ((allCommitFiles cs).dedup.filter (fun f => pyStartsWith f srcDir)).length := by
  obtain ⟨nc, np, chs, scc, cs', ps, bs, cl, _, _, hcs', _, _, _, _, _, rfl⟩ :=
    analyze_report_fields repoName repo r h
  obtain rfl : cs = cs' := Except.ok.inj (hcs.symm.trans hcs')
  have hperm := keysOf_scanCommits_perm cs
  have hcount : (buildReport repoName nc np cs ps bs cl).count_of_modified_files =
      (allCommitFiles cs).dedup.length := by
    show (scanCommits cs).1.length = _
    calc (scanCommits cs).1.length
        = (keysOf (scanCommits cs).1).length := (List.length_map _ _).symm
      _ = (allCommitFiles cs).dedup.length := hperm.length_eq
  have hdisp : (buildReport repoName nc np cs ps bs cl).disparity_in_location =
      ((allCommitFiles cs).dedup.filter (fun f => pyStartsWith f srcDir)).length := by
    show disparityLoop (scanCommits cs).1 = _
    rw [disparityLoop_eq]
    exact (hperm.filter _).length_eq
  refine ⟨?_, hcount, hdisp⟩
  rw [hdisp, hcount]
  exact List.length_filter_le _ _

/-- Claim C8, witness: the distinct-path counts on the §8 scenario. -/
theorem c8_distinct_file_counts_witness :
    scenarioReport.disparity_in_location ≤ scenarioReport.count_of_modified_files ∧
    scenarioReport.count_of_modified_files = (allCommitFiles scenarioCommits).dedup.length ∧
    scenarioReport.disparity_in_location =
      ((allCommitFiles scenarioCommits).dedup.filter
        (fun f => pyStartsWith f srcDir)).length :=
  c8_distinct_file_counts "octo/demo" scenarioRepo scenarioCommits scenarioReport rfl
    (by intro c hc
        simp only [scenarioCommits, List.mem_cons, List.not_mem_nil, or_false] at hc
        rcases hc with rfl | rfl | rfl | rfl <;> exact ⟨_, rfl⟩)
    scenario_analyze
